import Mathlib

/-!
Verification of the scrape-job orchestrator of the WatchDNA store-locator
backend, embedded from `src/backend/src/services/scraper.service.ts`.

The embedding models, faithfully to the TypeScript source:
  * the job record and its status values (`ScraperJob`, `Status`);
  * `cancelJob` with its NotFound / not-running / orphaned / live-handle
    branches, the outer try/catch, the SIGTERM kill, the 5-second
    escalation timer and the registry deletion order;
  * the `close` handler of the scraper worker: the nonzero-exit branch and
    the exit-code-0 post-processing pipeline (row counting, stdout summary
    parsing, master-CSV merge with its 5-minute timeout, upload-record
    persistence, and the terminal status writes with their retry shape);
  * `countCsvRows`, the streaming newline counter, as a fold over the
    chunks delivered by the read stream.

Persistence operations and filesystem calls are modelled as explicit
fallibility flags (`true` = the call succeeds, `false` = it throws), so
every catch branch of the source appears as a branch of the embedding.
-/

namespace ScraperService

/-- Job status values stored in the `status` column of a scraper job. -/
inductive Status where
  | queued
  | running
  | completed
  | failed
  | cancelled
deriving DecidableEq, Repr

/-- Rendering of a status value, used in the not-running message of `cancelJob`. -/
def Status.str : Status → String
  | .queued => "queued"
  | .running => "running"
  | .completed => "completed"
  | .failed => "failed"
  | .cancelled => "cancelled"

/-- The three right-hand states of the job state machine are terminal. -/
def Status.isTerminal : Status → Bool
  | .completed => true
  | .failed => true
  | .cancelled => true
  | .queued => false
  | .running => false

/-- The persisted scraper-job record (the fields the claims are about).
`completedAtSet` models whether the `completedAt` column is non-null. -/
structure ScraperJob where
  status : Status
  completedAtSet : Bool
  errorMessage : Option String
  recordsScraped : Option Nat
  logs : String
deriving DecidableEq, Repr

/-- Signals a `ChildProcess.kill` call can send in `cancelJob`. -/
inductive Signal where
  | sigterm
  | sigkill
deriving DecidableEq, Repr

/-- The state `cancelJob` reads and mutates: the persisted record for the
job id (none when `findUnique` returns null) and whether
`runningProcesses` holds a live handle for the job id. -/
structure World where
  job : Option ScraperJob
  registryHas : Bool
deriving DecidableEq, Repr

/-- Fallibility of the operations performed inside the `cancelJob` try
block: the Job Store lookup, the status update, and the kill signal.
`true` means the call throws. -/
structure CancelFaults where
  findThrows : Bool
  updateThrows : Bool
  killThrows : Bool
deriving DecidableEq, Repr

/-- The `{ success, message }` object `cancelJob` returns. -/
structure CancelResult where
  success : Bool
  message : String
deriving DecidableEq, Repr

/-- Everything observable about one `cancelJob` call: the state after the
call, the signals sent during its body, whether the 5-second escalation
timer was scheduled, the returned result, and the error the outer catch
handled (none when no internal call threw). -/
structure CancelEffects where
  world : World
  signalsSent : List Signal
  timerScheduled : Bool
  result : CancelResult
  caughtError : Option String
deriving DecidableEq, Repr

/-- The record update of the orphaned branch of `cancelJob` (job running
but no live handle): status cancelled, completedAt set, explanatory
message, cancellation line appended to the logs. -/
def orphanCancelUpdate (j : ScraperJob) (ts : String) : ScraperJob :=
  { j with
    status := .cancelled
    completedAtSet := true
    errorMessage := some "Job was cancelled (process not found)"
    logs := j.logs ++ "\n\n[" ++ ts ++ "] Job cancelled by user" }

/-- The record update of the live-handle branch of `cancelJob`. -/
def cancelUpdate (j : ScraperJob) (ts : String) : ScraperJob :=
  { j with
    status := .cancelled
    completedAtSet := true
    errorMessage := some "Job was cancelled by user"
    logs := j.logs ++ "\n\n[" ++ ts ++ "] ⛔ Job cancelled by user" }

/-- `cancelJob(jobId)`. Branch for branch from the source:
lookup (NotFound), not-running guard (InvalidState, no mutation),
orphaned branch (direct cancelled update, no signal), live-handle branch
(SIGTERM, schedule the 5-second force-kill timer, cancelled update,
registry delete). Every throw is converted by the outer catch into a
`success: false` result carrying the error message. -/
def cancelJob (f : CancelFaults) (ts : String) (w : World) : CancelEffects :=
  if f.findThrows then
    { world := w, signalsSent := [], timerScheduled := false
      result := ⟨false, "Error cancelling job: findUnique failed"⟩
      caughtError := some "findUnique failed" }
  else
    match w.job with
    | none =>
      { world := w, signalsSent := [], timerScheduled := false
        result := ⟨false, "Job not found"⟩, caughtError := none }
    | some job =>
      if job.status ≠ .running then
        { world := w, signalsSent := [], timerScheduled := false
          result := ⟨false, "Job is not running (status: " ++ job.status.str ++ ")"⟩
          caughtError := none }
      else if !w.registryHas then
        if f.updateThrows then
          { world := w, signalsSent := [], timerScheduled := false
            result := ⟨false, "Error cancelling job: update failed"⟩
            caughtError := some "update failed" }
        else
          { world := { job := some (orphanCancelUpdate job ts), registryHas := w.registryHas }
            signalsSent := [], timerScheduled := false
            result := ⟨true, "Job marked as cancelled (process not found)"⟩
            caughtError := none }
      else
        if f.killThrows then
          { world := w, signalsSent := [], timerScheduled := false
            result := ⟨false, "Error cancelling job: kill failed"⟩
            caughtError := some "kill failed" }
        else if f.updateThrows then
          { world := w, signalsSent := [.sigterm], timerScheduled := true
            result := ⟨false, "Error cancelling job: update failed"⟩
            caughtError := some "update failed" }
        else
          { world := { job := some (cancelUpdate job ts), registryHas := false }
            signalsSent := [.sigterm], timerScheduled := true
            result := ⟨true, "Job cancelled successfully"⟩
            caughtError := none }

/-- Grace period of the cancellation escalation timer (ms). -/
def cancelGraceMs : Nat := 5000

/-- The body of the 5-second escalation timer scheduled by `cancelJob`:
SIGKILL is sent iff `runningProcesses` still holds the job id when the
timer fires. -/
def forcedKillTimer (w : World) : List Signal :=
  if w.registryHas then [.sigkill] else []

/-- The nonzero-exit branch of the worker `close` handler: delete the
registry entry, then unconditionally write status failed with
`stderr` (or a generic exit-code message) and the full logs. -/
def failUpdate (j : ScraperJob) (stderrTxt codeStr fullLogs : String) : ScraperJob :=
  { j with
    status := .failed
    completedAtSet := true
    errorMessage := some (if stderrTxt ≠ "" then stderrTxt else "Process exited with code " ++ codeStr)
    logs := fullLogs }

/-- The worker `close` handler when the exit code is not 0. -/
def closeNonzero (stderrTxt codeStr fullLogs : String) (w : World) : World :=
  { job := (w.job).map (fun j => failUpdate j stderrTxt codeStr fullLogs)
    registryHas := false }

/-- One `data` event of `countCsvRows`: add the number of newline
characters in the chunk to the running count, and set
`lastChunkEndsWithNewline` to whether this (the most recent) chunk is
nonempty and ends with a newline. -/
def countCsvStep (st : Nat × Bool) (s : List Char) : Nat × Bool :=
  (st.1 + s.count '\n', s.getLast? == some '\n')

/-- `countCsvRows`, as a function of the chunk sequence the read stream
delivers: fold the `data` handler over the chunks, then on `end` return
`newlineCount - 1` (clamped at 0) when the last chunk ended in a newline,
else `newlineCount`. -/
def countCsvRows (chunks : List (List Char)) : Nat :=
  let st := chunks.foldl countCsvStep (0, false)
  if st.2 then st.1 - 1 else st.1

/-- The row-count formula stated by the spec (section 4.5): data rows =
lines − 1 for the header, where a final line lacking a trailing newline
still counts as one line. Stated over the whole file content, with no
reference to chunking. -/
def specDataRowCount (content : List Char) : Nat :=
  let nl := content.count '\n'
  (if content.getLast? == some '\n' then nl else nl + 1) - 1

/-- Outcome of the master-CSV merge child process, with the time (ms
after spawn) of its close or error event. -/
inductive MergeOutcome where
  | closesAt (code : Int) (t : Nat)
  | errorsAt (t : Nat)
  | neverExits
deriving DecidableEq, Repr

/-- Timeout of the merge step (ms): 5 minutes. -/
def mergeTimeoutMs : Nat := 300000

/-- When the merge watchdog timer kills the merge process: the timer is
cleared by a close or error event inside the window; if the process is
still alive when the timer fires, `mergeProcess.kill()` is sent at the
timeout. -/
def mergeForcedKillAt : MergeOutcome → Option Nat
  | .closesAt _ t => if mergeTimeoutMs ≤ t then some mergeTimeoutMs else none
  | .errorsAt t => if mergeTimeoutMs ≤ t then some mergeTimeoutMs else none
  | .neverExits => some mergeTimeoutMs

/-- Whether the merge step logs a warning: nonzero merge exit, a merge
process error, or the timeout firing. -/
def mergeWarned : MergeOutcome → Bool
  | .closesAt code t => decide (code ≠ 0) || decide (mergeTimeoutMs ≤ t)
  | .errorsAt _ => true
  | .neverExits => true

/-- Environment of the exit-code-0 branch of the worker `close` handler.
Boolean fields are fallibility flags for the filesystem and persistence
calls, in source order (`true` = the call succeeds, `false` = it throws):
`statSync` on the individual CSV, `countCsvRows` on it, the merge spawn,
`statSync`/`countCsvRows` on the master CSV (only reached when the file
exists), `upload.create` for the individual CSV, `upload.findFirst` and
the master upload update/create, then the completed status write, its
retry, and the failed status write of the catch branch.
`matchNormalized` and `matchCheckStores` are the results of the two
stdout regexes (digits before "stores normalized", digits after the
check-mark glyph before "stores"). -/
structure PostEnv where
  statOk : Bool
  rowCountOk : Bool
  fileRowCount : Nat
  matchNormalized : Option Nat
  matchCheckStores : Option Nat
  mergeSpawnOk : Bool
  merge : MergeOutcome
  masterExists : Bool
  masterStatOk : Bool
  masterCountOk : Bool
  masterRowCount : Nat
  uploadCreateOk : Bool
  masterFindOk : Bool
  masterUpsertOk : Bool
  completedWriteOk : Bool
  completedRetryOk : Bool
  failedWriteOk : Bool
deriving DecidableEq, Repr

/-- What the exit-code-0 branch leaves behind: the persisted status after
the handler (still `running` when every terminal write threw), whether
`completedAt` was set, the persisted error message and records count, how
many times each terminal write was attempted, and when (if ever) the
merge watchdog killed the merge process. -/
structure PostResult where
  status : Status
  completedAtSet : Bool
  errorMessage : Option String
  recordsScraped : Option Nat
  completedWriteAttempts : Nat
  failedWriteAttempts : Nat
  mergeKilledAt : Option Nat
deriving DecidableEq, Repr

/-- `recordsScraped` once step 1 has completed: prefer the first stdout
regex, then the second, else the streamed row count
(`normalizedMatch ? parseInt(...) : totalRows`). -/
def summaryFigure (e : PostEnv) : Option Nat :=
  e.matchNormalized <|> e.matchCheckStores

/-- The catch branch of the exit-code-0 post-processing: one failed
status write with the "Post-processing error:" message prefix, never
retried. `recordsSoFar` is the `recordsScraped` local at the time of the
throw (none iff the throw happened before line 160 assigned it); when it
is none the fallback re-parses stdout with the "stores normalized" regex
only, defaulting to 0. -/
def postFail (e : PostEnv) (recordsSoFar : Option Nat) (reason : String)
    (killedAt : Option Nat) : PostResult :=
  let finalRecords := recordsSoFar.getD (e.matchNormalized.getD 0)
  if e.failedWriteOk then
    { status := .failed
      completedAtSet := true
      errorMessage := some ("Post-processing error: " ++ reason)
      recordsScraped := some finalRecords
      completedWriteAttempts := 0
      failedWriteAttempts := 1
      mergeKilledAt := killedAt }
  else
    { status := .running
      completedAtSet := false
      errorMessage := none
      recordsScraped := none
      completedWriteAttempts := 0
      failedWriteAttempts := 1
      mergeKilledAt := killedAt }

/-- The exit-code-0 branch of the worker `close` handler, in source
order: stat and row-count the individual CSV, compute `recordsScraped`,
run the merge (its own try and always-resolving promise shield it from
the surrounding try), stat and row-count the master CSV when it exists,
create the individual upload record, find and upsert the master upload
record, then write the completed status, retrying that write once. Any
throw from an unshielded call lands in the catch branch (`postFail`). -/
def postProcess (e : PostEnv) : PostResult :=
  if !e.statOk then postFail e none "statSync failed" none
  else if !e.rowCountOk then postFail e none "countCsvRows failed" none
  else
    let records := (summaryFigure e).getD e.fileRowCount
    let killedAt := if e.mergeSpawnOk then mergeForcedKillAt e.merge else none
    if e.masterExists && !e.masterStatOk then
      postFail e (some records) "statSync on master failed" killedAt
    else if e.masterExists && !e.masterCountOk then
      postFail e (some records) "countCsvRows on master failed" killedAt
    else if !e.uploadCreateOk then
      postFail e (some records) "upload create failed" killedAt
    else if !e.masterFindOk then
      postFail e (some records) "upload findFirst failed" killedAt
    else if e.masterExists && !e.masterUpsertOk then
      postFail e (some records) "master upload upsert failed" killedAt
    else if e.completedWriteOk then
      { status := .completed, completedAtSet := true, errorMessage := none
        recordsScraped := some records, completedWriteAttempts := 1
        failedWriteAttempts := 0, mergeKilledAt := killedAt }
    else if e.completedRetryOk then
      { status := .completed, completedAtSet := true, errorMessage := none
        recordsScraped := some records, completedWriteAttempts := 2
        failedWriteAttempts := 0, mergeKilledAt := killedAt }
    else
      { status := .running, completedAtSet := false, errorMessage := none
        recordsScraped := none, completedWriteAttempts := 2
        failedWriteAttempts := 0, mergeKilledAt := killedAt }

/-- Disjunction of the unshielded post-processing calls after step 1
(master stats, upload-record persistence) whose throw reaches the catch
branch. -/
def laterStepFailure (e : PostEnv) : Bool :=
  (e.masterExists && (!e.masterStatOk || !e.masterCountOk || !e.masterUpsertOk))
    || !e.uploadCreateOk || !e.masterFindOk

lemma countCsvStep_foldl_fst (chunks : List (List Char)) (a : Nat) (b : Bool) :
    (chunks.foldl countCsvStep (a, b)).1 = a + (chunks.flatten.count '\n') := by
  induction chunks generalizing a b with
  | nil => simp
  | cons c cs ih =>
      simp [List.foldl_cons, countCsvStep, ih, List.count_append]
      omega

lemma flatten_ne_nil (chunks : List (List Char)) (h : chunks ≠ [])
    (hne : ∀ ch ∈ chunks, ch ≠ []) : chunks.flatten ≠ [] := by
  cases chunks with
  | nil => exact absurd rfl h
  | cons c cs =>
      have hc : c ≠ [] := hne c (by simp)
      simp [List.flatten_cons, List.append_eq_nil]
      intro hcnil
      exact absurd hcnil hc

lemma countCsvStep_foldl_snd (chunks : List (List Char)) (hne : ∀ ch ∈ chunks, ch ≠ [])
    (h : chunks ≠ []) (a : Nat) (b : Bool) :
    (chunks.foldl countCsvStep (a, b)).2 = (chunks.flatten.getLast? == some '\n') := by
  induction chunks generalizing a b with
  | nil => exact absurd rfl h
  | cons c cs ih =>
      by_cases hcs : cs = []
      · subst hcs
        simp [countCsvStep]
      · have hne2 : ∀ ch ∈ cs, ch ≠ [] := fun ch hm => hne ch (List.mem_cons_of_mem _ hm)
        have hfl : cs.flatten ≠ [] := flatten_ne_nil cs hcs hne2
        rw [List.foldl_cons, ih hne2 hcs]
        simp [List.flatten_cons, List.getLast?_append_of_ne_nil _ hfl]

/-- C2: for every file content and every way the read stream splits that
content into (nonempty) chunks, `countCsvRows` returns the same value,
namely the spec formula: lines minus one for the header, a final line
lacking a trailing newline still counting as one line. -/
theorem countCsvRows_chunk_independent (content : List Char) (chunks : List (List Char))
    (hne : ∀ ch ∈ chunks, ch ≠ []) (hj : chunks.flatten = content) :
    countCsvRows chunks = specDataRowCount content := by
  subst hj
  by_cases h : chunks = []
  · subst h; simp [countCsvRows, specDataRowCount]
  · simp only [countCsvRows, specDataRowCount]
    rw [countCsvStep_foldl_snd chunks hne h, countCsvStep_foldl_fst]
    cases hB : (chunks.flatten.getLast? == some '\n') <;> simp [hB]

/-- C2 witness: a header line plus two data lines with a trailing
newline, streamed in 1-byte chunks, matches the spec count (2). -/
theorem countCsvRows_chunk_independent_witness :
    countCsvRows [['h'], ['\n'], ['a'], ['\n'], ['b'], ['\n']]
      = specDataRowCount ['h', '\n', 'a', '\n', 'b', '\n'] :=
  countCsvRows_chunk_independent ['h', '\n', 'a', '\n', 'b', '\n']
    [['h'], ['\n'], ['a'], ['\n'], ['b'], ['\n']] (by decide) (by decide)

/-- C5: when the lookup itself does not throw, `cancelJob` on a job whose
status is not running returns the InvalidState failure result and leaves
the state untouched (no mutation, no signal, no timer), and on a job id
with no record it returns the NotFound failure result, also without
mutation. -/
theorem cancelJob_rejects_non_running (f : CancelFaults) (ts : String) (w : World)
    (hfind : f.findThrows = false) :
    (∀ j, w.job = some j → j.status ≠ .running →
        cancelJob f ts w =
          { world := w, signalsSent := [], timerScheduled := false
            result := ⟨false, "Job is not running (status: " ++ j.status.str ++ ")"⟩
            caughtError := none }) ∧
    (w.job = none →
        cancelJob f ts w =
          { world := w, signalsSent := [], timerScheduled := false
            result := ⟨false, "Job not found"⟩, caughtError := none }) := by
  constructor
  · intro j hj hs
    simp [cancelJob, hfind, hj, hs]
  · intro hj
    simp [cancelJob, hfind, hj]

/-- C5 witness: cancelling a completed job is rejected without mutation. -/
theorem cancelJob_rejects_non_running_witness :
    cancelJob ⟨false, false, false⟩ "t" ⟨some ⟨.completed, true, none, none, ""⟩, false⟩ =
      { world := ⟨some ⟨.completed, true, none, none, ""⟩, false⟩
        signalsSent := [], timerScheduled := false
        result := ⟨false, "Job is not running (status: " ++ (Status.completed).str ++ ")"⟩
        caughtError := none } :=
  (cancelJob_rejects_non_running ⟨false, false, false⟩ "t"
      ⟨some ⟨.completed, true, none, none, ""⟩, false⟩ rfl).1
    ⟨.completed, true, none, none, ""⟩ rfl (by decide)

/-- C9: `cancelJob` on a running job with no live handle in the registry
transitions the record directly to cancelled with `completedAt` set and
the cancellation line appended to the logs, sends no signal, schedules no
timer, and returns a success result. -/
theorem cancelJob_orphaned (f : CancelFaults) (ts : String) (w : World) (j : ScraperJob)
    (hfind : f.findThrows = false) (hupd : f.updateThrows = false)
    (hj : w.job = some j) (hs : j.status = .running) (hr : w.registryHas = false) :
    cancelJob f ts w =
      { world := { job := some (orphanCancelUpdate j ts), registryHas := false }
        signalsSent := [], timerScheduled := false
        result := ⟨true, "Job marked as cancelled (process not found)"⟩
        caughtError := none } ∧
    (orphanCancelUpdate j ts).status = .cancelled ∧
    (orphanCancelUpdate j ts).completedAtSet = true ∧
    (orphanCancelUpdate j ts).logs = j.logs ++ "\n\n[" ++ ts ++ "] Job cancelled by user" := by
  refine ⟨?_, rfl, rfl, rfl⟩
  simp [cancelJob, hfind, hupd, hj, hs, hr]

/-- C9 witness: an orphaned running job is marked cancelled with no
signal sent. -/
theorem cancelJob_orphaned_witness :
    cancelJob ⟨false, false, false⟩ "t" ⟨some ⟨.running, false, none, none, "L"⟩, false⟩ =
      { world := ⟨some (orphanCancelUpdate ⟨.running, false, none, none, "L"⟩ "t"), false⟩
        signalsSent := [], timerScheduled := false
        result := ⟨true, "Job marked as cancelled (process not found)"⟩
        caughtError := none } :=
  (cancelJob_orphaned ⟨false, false, false⟩ "t"
      ⟨some ⟨.running, false, none, none, "L"⟩, false⟩
      ⟨.running, false, none, none, "L"⟩ rfl rfl rfl rfl rfl).1

/-- C10: `cancelJob` never lets an internal exception propagate: whenever
one of the calls in its body throws (the caught error is recorded), the
returned value is still a `{ success := false, message }` result built
from that error. -/
theorem cancelJob_catches_internal_errors (f : CancelFaults) (ts : String) (w : World)
    (e : String) (h : (cancelJob f ts w).caughtError = some e) :
    (cancelJob f ts w).result = ⟨false, "Error cancelling job: " ++ e⟩ := by
  rcases f with ⟨ft, ut, kt⟩
  rcases w with ⟨jobOpt, reg⟩
  cases ft <;> cases ut <;> cases kt <;> cases reg <;>
    rcases jobOpt with _ | ⟨⟨st, ca, em, rs, lg⟩⟩ <;>
    (try cases st) <;> simp_all [cancelJob] <;> (subst h; decide)

/-- C10 witness: a throwing status update on the live-handle path is
converted into a failure result. -/
theorem cancelJob_catches_internal_errors_witness :
    (cancelJob ⟨false, true, false⟩ "t" ⟨some ⟨.running, false, none, none, ""⟩, true⟩).result
      = ⟨false, "Error cancelling job: " ++ "update failed"⟩ :=
  cancelJob_catches_internal_errors ⟨false, true, false⟩ "t"
    ⟨some ⟨.running, false, none, none, ""⟩, true⟩ "update failed" (by decide)

/-- The worlds of the cancel-then-exit trace refuting the terminal-state
invariant: a running job with a live handle is cancelled, then its killed
worker emits the `close` event with a nonzero (null) exit code. -/
def c1World0 : World := ⟨some ⟨.running, false, none, none, ""⟩, true⟩

/-- State after `cancelJob` in the cancel-then-exit trace. -/
def c1World1 : World := (cancelJob ⟨false, false, false⟩ "t" c1World0).world

/-- State after the worker `close` handler in the cancel-then-exit trace. -/
def c1World2 : World := closeNonzero "" "null" "logs" c1World1

/-- C1 (refuted by the code): after `cancelJob` has set a running job to
cancelled — a terminal status — the worker `close` handler with nonzero
exit code unconditionally overwrites the status to failed, so a
transition does leave a terminal state. -/
theorem cancelled_overwritten_by_close :
    c1World1.job.map ScraperJob.status = some .cancelled ∧
    Status.isTerminal .cancelled = true ∧
    c1World2.job.map ScraperJob.status = some .failed := by decide

/-- State after a fault-free `cancelJob` of a running job with a live
handle, used to evaluate the escalation timer. -/
def c3Eff : CancelEffects :=
  cancelJob ⟨false, false, false⟩ "t" ⟨some ⟨.running, false, none, none, ""⟩, true⟩

/-- C3 (forced-kill part refuted by the code): a normal cancel of a
running job with a live handle does reach status cancelled, sends
SIGTERM and schedules the 5-second escalation timer — but `cancelJob`
has already deleted the registry entry, so when the timer fires its
registry check fails and no SIGKILL is ever sent, even though the worker
never exited. -/
theorem cancelJob_forced_kill_never_fires :
    c3Eff.result.success = true ∧
    c3Eff.world.job.map ScraperJob.status = some .cancelled ∧
    c3Eff.signalsSent = [.sigterm] ∧
    c3Eff.timerScheduled = true ∧
    c3Eff.world.registryHas = false ∧
    forcedKillTimer c3Eff.world = [] := by decide

lemma postFail_spec (e : PostEnv) (rs : Option Nat) (reason : String) (k : Option Nat)
    (hfw : e.failedWriteOk = true) :
    (postFail e rs reason k).status = .failed ∧
    (∃ s, (postFail e rs reason k).errorMessage = some ("Post-processing error: " ++ s)) ∧
    (postFail e rs reason k).recordsScraped = some (rs.getD (e.matchNormalized.getD 0)) :=
  ⟨by simp [postFail, hfw], ⟨reason, by simp [postFail, hfw]⟩, by simp [postFail, hfw]⟩

lemma postProcess_earlyFailure (e : PostEnv) (h : e.statOk = false ∨ e.rowCountOk = false) :
    ∃ reason, postProcess e = postFail e none reason none := by
  by_cases hs : e.statOk
  · rcases h with h | h
    · exact absurd hs (by simp [h])
    · exact ⟨"countCsvRows failed", by simp [postProcess, hs, h]⟩
  · exact ⟨"statSync failed", by simp [postProcess, hs]⟩

lemma postProcess_laterFailure (e : PostEnv) (h1 : e.statOk = true) (h2 : e.rowCountOk = true)
    (hl : laterStepFailure e = true) :
    ∃ reason, postProcess e =
      postFail e (some ((summaryFigure e).getD e.fileRowCount)) reason
        (if e.mergeSpawnOk then mergeForcedKillAt e.merge else none) := by
  rcases e with ⟨so, rco, frc, mn, mcs, mso, mg, mex, msk, mck, mrc, uco, mfo, muo, cwo, cro, fwo⟩
  cases mex <;> cases msk <;> cases mck <;> cases muo <;> cases uco <;> cases mfo <;>
    simp_all [postProcess, laterStepFailure, summaryFigure] <;> exact ⟨_, rfl⟩

lemma postProcess_allOk (e : PostEnv) (h1 : e.statOk = true) (h2 : e.rowCountOk = true)
    (hl : laterStepFailure e = false) (hcw : e.completedWriteOk = true) :
    postProcess e =
      { status := .completed, completedAtSet := true, errorMessage := none
        recordsScraped := some ((summaryFigure e).getD e.fileRowCount)
        completedWriteAttempts := 1, failedWriteAttempts := 0
        mergeKilledAt := if e.mergeSpawnOk then mergeForcedKillAt e.merge else none } := by
  rcases e with ⟨so, rco, frc, mn, mcs, mso, mg, mex, msk, mck, mrc, uco, mfo, muo, cwo, cro, fwo⟩
  cases mex <;> cases msk <;> cases mck <;> cases muo <;> cases uco <;> cases mfo <;>
    simp_all [postProcess, laterStepFailure, summaryFigure]

/-- Post-processing environment in which every step up to and including
the row count succeeds (the summary figure 7 is present in stdout) but
persisting the individual upload record throws. -/
def envC4 : PostEnv :=
  { statOk := true, rowCountOk := true, fileRowCount := 5
    matchNormalized := some 7, matchCheckStores := none
    mergeSpawnOk := true, merge := .closesAt 0 10
    masterExists := true, masterStatOk := true, masterCountOk := true
    masterRowCount := 5, uploadCreateOk := false, masterFindOk := true
    masterUpsertOk := true, completedWriteOk := true, completedRetryOk := true
    failedWriteOk := true }

/-- C4 counterexample: with the row count long since determined, a
failure while persisting the individual upload record (step 5) still
drives the job to failed with the Post-processing error prefix — the
claim says any failure after step 1 leaves the job completed. -/
theorem postProcess_upload_failure_fails_job :
    (postProcess envC4).status = .failed ∧
    (postProcess envC4).errorMessage
      = some "Post-processing error: upload create failed" ∧
    (postProcess envC4).recordsScraped = some 7 := by decide

/-- C4 amended: after a zero-exit, a failure before the row count
completes drives the job to failed with the Post-processing error prefix
(row count falling back to the stores-normalized stdout figure or 0);
merge problems never fail the job; but failures in the master statistics
recomputation or in persisting the result records also drive the job to
failed with the same prefix, preserving the already-computed row count;
only when all unshielded steps succeed is the job completed. -/
theorem postProcess_failure_paths (e : PostEnv) (hfw : e.failedWriteOk = true) :
    ((e.statOk = false ∨ e.rowCountOk = false) →
        (postProcess e).status = .failed ∧
        (∃ s, (postProcess e).errorMessage = some ("Post-processing error: " ++ s)) ∧
        (postProcess e).recordsScraped = some (e.matchNormalized.getD 0)) ∧
    ((e.statOk = true ∧ e.rowCountOk = true ∧ laterStepFailure e = true) →
        (postProcess e).status = .failed ∧
        (∃ s, (postProcess e).errorMessage = some ("Post-processing error: " ++ s)) ∧
        (postProcess e).recordsScraped = some ((summaryFigure e).getD e.fileRowCount)) ∧
    ((e.statOk = true ∧ e.rowCountOk = true ∧ laterStepFailure e = false ∧
        e.completedWriteOk = true) →
        (postProcess e).status = .completed) := by
  refine ⟨?_, ?_, ?_⟩
  · intro h
    obtain ⟨reason, hpp⟩ := postProcess_earlyFailure e h
    rw [hpp]
    simpa using postFail_spec e none reason none hfw
  · rintro ⟨h1, h2, hl⟩
    obtain ⟨reason, hpp⟩ := postProcess_laterFailure e h1 h2 hl
    rw [hpp]
    simpa using postFail_spec e _ reason _ hfw
  · rintro ⟨h1, h2, hl, hcw⟩
    rw [postProcess_allOk e h1 h2 hl hcw]

/-- C4 witness: the amended claim applied to `envC4` (step-5 failure with
the summary figure 7 present). -/
theorem postProcess_failure_paths_witness :
    (postProcess envC4).status = .failed ∧
    (postProcess envC4).recordsScraped = some 7 := by
  have h := (postProcess_failure_paths envC4 rfl).2.1 ⟨rfl, rfl, by decide⟩
  refine ⟨h.1, ?_⟩
  rw [h.2.2]; decide

/-- Post-processing environment whose very first step (`statSync` on the
individual CSV) throws and whose failed status write also throws once. -/
def envC7 : PostEnv :=
  { statOk := false, rowCountOk := true, fileRowCount := 0
    matchNormalized := none, matchCheckStores := none
    mergeSpawnOk := true, merge := .closesAt 0 10
    masterExists := false, masterStatOk := true, masterCountOk := true
    masterRowCount := 0, uploadCreateOk := true, masterFindOk := true
    masterUpsertOk := true, completedWriteOk := true, completedRetryOk := true
    failedWriteOk := false }

/-- C7 counterexample: the failed terminal write is attempted exactly
once — a single transient persistence failure on it leaves the job in
running, with no retry, contradicting the claim that every terminal
write is retried once. -/
theorem failed_write_not_retried :
    (postProcess envC7).status = .running ∧
    (postProcess envC7).failedWriteAttempts = 1 := by decide

/-- C7 amended: only the completed terminal write is retried (exactly
once): a first failure followed by a successful retry still completes the
job, a failure of both attempts leaves it running after two attempts, and
the failed terminal write is attempted only once, so a single persistence
failure there leaves the job running. -/
theorem terminal_write_retry_shape (e : PostEnv)
    (h1 : e.statOk = true) (h2 : e.rowCountOk = true) (hl : laterStepFailure e = false) :
    ((e.completedWriteOk = false ∧ e.completedRetryOk = true) →
        (postProcess e).status = .completed ∧
        (postProcess e).completedWriteAttempts = 2) ∧
    ((e.completedWriteOk = false ∧ e.completedRetryOk = false) →
        (postProcess e).status = .running ∧
        (postProcess e).completedWriteAttempts = 2) ∧
    (∀ e2 : PostEnv, e2.statOk = false → e2.failedWriteOk = false →
        (postProcess e2).status = .running ∧
        (postProcess e2).failedWriteAttempts = 1) := by
  refine ⟨?_, ?_, ?_⟩
  · rintro ⟨hc, hr⟩
    rcases e with ⟨so, rco, frc, mn, mcs, mso, mg, mex, msk, mck, mrc, uco, mfo, muo, cwo, cro, fwo⟩
    cases mex <;> cases msk <;> cases mck <;> cases muo <;> cases uco <;> cases mfo <;>
      simp_all [postProcess, laterStepFailure]
  · rintro ⟨hc, hr⟩
    rcases e with ⟨so, rco, frc, mn, mcs, mso, mg, mex, msk, mck, mrc, uco, mfo, muo, cwo, cro, fwo⟩
    cases mex <;> cases msk <;> cases mck <;> cases muo <;> cases uco <;> cases mfo <;>
      simp_all [postProcess, laterStepFailure]
  · intro e2 hso hfw
    simp [postProcess, postFail, hso, hfw]

/-- Environment in which the completed status write fails once and its
retry succeeds. -/
def envC7Retry : PostEnv :=
  { statOk := true, rowCountOk := true, fileRowCount := 3
    matchNormalized := none, matchCheckStores := none
    mergeSpawnOk := true, merge := .closesAt 0 10
    masterExists := false, masterStatOk := true, masterCountOk := true
    masterRowCount := 0, uploadCreateOk := true, masterFindOk := true
    masterUpsertOk := true, completedWriteOk := false, completedRetryOk := true
    failedWriteOk := true }

/-- C7 witness: the amended claim applied at a retry-succeeds
environment and at `envC7`. -/
theorem terminal_write_retry_shape_witness :
    (postProcess envC7Retry).status = .completed ∧
    (postProcess envC7).status = .running := by
  have h := terminal_write_retry_shape envC7Retry rfl rfl (by decide)
  exact ⟨(h.1 ⟨rfl, rfl⟩).1, (h.2.2 envC7 rfl rfl).1⟩

/-- C6: whatever the merge child process does — nonzero exit, process
error, or never exiting at all — the parent job still reaches completed
when the unshielded steps succeed; a merge worker that never exits is
killed exactly at the 5-minute (300000 ms) watchdog timeout, and a merge
that ends inside the window is never killed. -/
theorem merge_failure_tolerated (e : PostEnv)
    (h1 : e.statOk = true) (h2 : e.rowCountOk = true) (hl : laterStepFailure e = false)
    (hcw : e.completedWriteOk = true) :
    (postProcess e).status = .completed ∧
    (e.mergeSpawnOk = true → e.merge = .neverExits →
        (postProcess e).mergeKilledAt = some mergeTimeoutMs) ∧
    (∀ code t, t < mergeTimeoutMs → mergeForcedKillAt (.closesAt code t) = none) ∧
    mergeTimeoutMs = 300000 ∧
    mergeWarned .neverExits = true := by
  have hp := postProcess_allOk e h1 h2 hl hcw
  refine ⟨by rw [hp], ?_, ?_, rfl, rfl⟩
  · intro hsp hm
    rw [hp]
    simp [hsp, hm, mergeForcedKillAt]
  · intro code t ht
    simp [mergeForcedKillAt, Nat.not_le_of_lt ht]

/-- Environment in which every unshielded step succeeds but the merge
worker never exits. -/
def envC6 : PostEnv :=
  { statOk := true, rowCountOk := true, fileRowCount := 4
    matchNormalized := none, matchCheckStores := none
    mergeSpawnOk := true, merge := .neverExits
    masterExists := true, masterStatOk := true, masterCountOk := true
    masterRowCount := 9, uploadCreateOk := true, masterFindOk := true
    masterUpsertOk := true, completedWriteOk := true, completedRetryOk := true
    failedWriteOk := true }

/-- C6 witness: a merge worker that never exits is killed at 300000 ms
and the job still completes. -/
theorem merge_failure_tolerated_witness :
    (postProcess envC6).status = .completed ∧
    (postProcess envC6).mergeKilledAt = some mergeTimeoutMs := by
  have h := merge_failure_tolerated envC6 rfl rfl (by decide) rfl
  exact ⟨h.1, h.2.1 rfl rfl⟩

/-- C8: on a zero-exit run in which post-processing succeeds, the
recorded `recordsScraped` is the stdout summary figure (first the
stores-normalized regex, then the check-mark regex) when one is present,
and otherwise the streaming row count of the output file. -/
theorem recordsScraped_prefers_stdout_summary (e : PostEnv)
    (h1 : e.statOk = true) (h2 : e.rowCountOk = true) (hl : laterStepFailure e = false)
    (hcw : e.completedWriteOk = true) :
    (postProcess e).status = .completed ∧
    (postProcess e).recordsScraped = some ((summaryFigure e).getD e.fileRowCount) ∧
    (∀ n, summaryFigure e = some n → (postProcess e).recordsScraped = some n) ∧
    (summaryFigure e = none → (postProcess e).recordsScraped = some e.fileRowCount) := by
  have hp := postProcess_allOk e h1 h2 hl hcw
  refine ⟨by rw [hp], by rw [hp], ?_, ?_⟩
  · intro n hn
    rw [hp]; simp [hn]
  · intro hn
    rw [hp]; simp [hn]

/-- Environment with the summary figure 12 in stdout and 9 rows in the
output file. -/
def envC8 : PostEnv :=
  { statOk := true, rowCountOk := true, fileRowCount := 9
    matchNormalized := some 12, matchCheckStores := none
    mergeSpawnOk := true, merge := .closesAt 0 10
    masterExists := false, masterStatOk := true, masterCountOk := true
    masterRowCount := 0, uploadCreateOk := true, masterFindOk := true
    masterUpsertOk := true, completedWriteOk := true, completedRetryOk := true
    failedWriteOk := true }

/-- C8 witness: with the summary figure 12 in stdout and 9 rows in the
file, the completed job records 12. -/
theorem recordsScraped_prefers_stdout_summary_witness :
    (postProcess envC8).recordsScraped = some 12 :=
  (recordsScraped_prefers_stdout_summary envC8 rfl rfl (by decide) rfl).2.2.1 12 rfl

end ScraperService
